import Mathlib

set_option maxHeartbeats 1000000

/-!
Shallow embedding of the Pet Care Management System domain core
(`src/main.py`): pets (variants Dog, Cat, Bird), care-schedule entries,
health records, the overdue-task query, and the manager's collection and
persistence operations.

Modelling conventions:
* Calendar dates (stored in the source as `"YYYY-MM-DD"` strings and
  compared via `datetime` subtraction in whole days) are modelled as
  integer day numbers (`Int`); the difference of two dates is their
  integer difference.
* The source's implicit ambient `datetime.now()` is threaded as an
  explicit `today` / `current_date` parameter.
* A Python dict used as a JSON record is modelled as a structure of
  `Option` fields: `none` means the key is absent.  `data['k']` on an
  absent key raises `KeyError` (caught by the surrounding `try`), which
  the embedding models by pattern matching; `data.get('k', d)` is
  `Option.getD`.
* Python exceptions caught by `try/except` blocks become `Option` /
  `Except` values; a caught-and-printed exception becomes a diagnostic
  component of the result.
-/

/-- One care-schedule entry: `{'task': ..., 'frequency_days': ..., 'last_done': ...}`
as appended by `Pet.add_care_task`. -/
structure CareTask where
  task : String
  frequency_days : Int
  last_done : Int
  deriving Repr, DecidableEq

/-- One health record: `{'type': ..., 'description': ..., 'date': ...}`
as appended by `Pet.add_health_record`. -/
structure HealthRecord where
  type : String
  description : String
  date : Int
  deriving Repr, DecidableEq

/-- The variant of a pet together with its variant-specific attribute:
`Dog.size`, `Cat.indoor`, `Bird.can_fly` from the three subclasses. -/
inductive PetVariant where
  | Dog (size : String)
  | Cat (indoor : Bool)
  | Bird (can_fly : Bool)
  deriving Repr, DecidableEq

/-- A pet: the common attributes of class `Pet` (`name`, `age`, `breed`,
`care_schedule`, `health_records`) plus the variant tag and its
variant-specific attribute. -/
structure Pet where
  variant : PetVariant
  name : String
  age : Int
  breed : String
  care_schedule : List CareTask
  health_records : List HealthRecord
  deriving Repr, DecidableEq

/-- The state `Pet.__init__` establishes before the subclass constructor
seeds default tasks: empty schedule and records. -/
def Pet.base (variant : PetVariant) (name : String) (age : Int) (breed : String) : Pet :=
  { variant := variant, name := name, age := age, breed := breed,
    care_schedule := [], health_records := [] }

/-- `Pet.add_care_task(task, frequency_days, last_done=None)`: appends one
entry; a missing `last_done` defaults to today's date. -/
def Pet.add_care_task (p : Pet) (task : String) (frequency_days : Int)
    (last_done : Option Int) (today : Int) : Pet :=
  { p with care_schedule := p.care_schedule ++
      [{ task := task, frequency_days := frequency_days, last_done := last_done.getD today }] }

/-- `Pet.add_health_record(record_type, description, date=None)`: appends one
record; a missing `date` defaults to today's date. -/
def Pet.add_health_record (p : Pet) (record_type : String) (description : String)
    (date : Option Int) (today : Int) : Pet :=
  { p with health_records := p.health_records ++
      [{ type := record_type, description := description, date := date.getD today }] }

/-- `Dog.__init__(name, age, breed="Mixed", size="Medium")`: sets `size` and
seeds Walk/1, Feed/1, Bath/7, Vet Checkup/90 with `last_done` = today. -/
def Dog.init (name : String) (age : Int) (breed : String) (size : String) (today : Int) : Pet :=
  ((((Pet.base (.Dog size) name age breed).add_care_task "Walk" 1 none today).add_care_task
    "Feed" 1 none today).add_care_task "Bath" 7 none today).add_care_task
    "Vet Checkup" 90 none today

/-- `Cat.__init__(name, age, breed="Mixed", indoor=True)`: sets `indoor` and
seeds Feed/1, Litter Box Clean/2, Brush/3, Vet Checkup/90. -/
def Cat.init (name : String) (age : Int) (breed : String) (indoor : Bool) (today : Int) : Pet :=
  ((((Pet.base (.Cat indoor) name age breed).add_care_task "Feed" 1 none today).add_care_task
    "Litter Box Clean" 2 none today).add_care_task "Brush" 3 none today).add_care_task
    "Vet Checkup" 90 none today

/-- `Bird.__init__(name, age, breed="Unknown", can_fly=True)`: sets `can_fly`
and seeds Feed/1, Cage Clean/3, Wing Trim/60, Vet Checkup/180. -/
def Bird.init (name : String) (age : Int) (breed : String) (can_fly : Bool) (today : Int) : Pet :=
  ((((Pet.base (.Bird can_fly) name age breed).add_care_task "Feed" 1 none today).add_care_task
    "Cage Clean" 3 none today).add_care_task "Wing Trim" 60 none today).add_care_task
    "Vet Checkup" 180 none today

/-- One element of the list returned by `Pet.get_overdue_tasks`:
`{'task': ..., 'days_overdue': ...}`. -/
structure OverdueEntry where
  task : String
  days_overdue : Int
  deriving Repr, DecidableEq

/-- One iteration of the loop in `Pet.get_overdue_tasks`: compute
`days_since = current_date - last_done` and append the entry when
`days_since >= frequency_days`, with `days_overdue = days_since - frequency_days + 1`. -/
def overdue_step (current_date : Int) (overdue : List OverdueEntry) (task : CareTask) :
    List OverdueEntry :=
  let days_since := current_date - task.last_done
  if task.frequency_days ≤ days_since then
    overdue ++ [{ task := task.task, days_overdue := days_since - task.frequency_days + 1 }]
  else
    overdue

/-- `Pet.get_overdue_tasks()`: folds the loop over the care schedule,
starting from the empty accumulator `overdue = []`. -/
def Pet.get_overdue_tasks (p : Pet) (current_date : Int) : List OverdueEntry :=
  p.care_schedule.foldl (overdue_step current_date) []

/-- The method `Pet.get_overdue_tasks` as a state transformer on the pet:
the body only reads `self.care_schedule` and local variables and never
assigns to any attribute of `self`, so the post-state component is the
unchanged pet. -/
def Pet.get_overdue_tasks_run (p : Pet) (current_date : Int) : List OverdueEntry × Pet :=
  (p.care_schedule.foldl (overdue_step current_date) [], p)

/-- A persisted pet record (one JSON object of the stored array).  Each
field is `none` when the key is absent from the dict. -/
structure PetDoc where
  type? : Option String := none
  name? : Option String := none
  age? : Option Int := none
  breed? : Option String := none
  care_schedule? : Option (List CareTask) := none
  health_records? : Option (List HealthRecord) := none
  size? : Option String := none
  indoor? : Option Bool := none
  can_fly? : Option Bool := none
  deriving Repr, DecidableEq

/-- `self.__class__.__name__`: the variant tag string written by `to_dict`. -/
def Pet.class_name (p : Pet) : String :=
  match p.variant with
  | .Dog _ => "Dog"
  | .Cat _ => "Cat"
  | .Bird _ => "Bird"

/-- `Pet.to_dict()` plus the subclass override that adds the one
variant-specific key (`size` / `indoor` / `can_fly`). -/
def Pet.to_dict (p : Pet) : PetDoc :=
  { type? := some p.class_name
    name? := some p.name
    age? := some p.age
    breed? := some p.breed
    care_schedule? := some p.care_schedule
    health_records? := some p.health_records
    size? := match p.variant with | .Dog size => some size | _ => none
    indoor? := match p.variant with | .Cat indoor => some indoor | _ => none
    can_fly? := match p.variant with | .Bird can_fly => some can_fly | _ => none }

/-- `PetCareManager.create_pet_from_data(data)`: reads the four required
keys (a `KeyError` on any of them is caught and yields `None`), dispatches
on the variant tag (an unrecognized tag yields `None`), applies the
variant defaults for a missing variant-specific key, then overwrites the
freshly seeded `care_schedule` and `health_records` with the stored
sequences (defaulting to empty lists when the keys are absent). -/
def create_pet_from_data (data : PetDoc) (today : Int) : Option Pet :=
  match data.type?, data.name?, data.age?, data.breed? with
  | some pet_type, some name, some age, some breed =>
    let pet? : Option Pet :=
      if pet_type = "Dog" then
        some (Dog.init name age breed (data.size?.getD "Medium") today)
      else if pet_type = "Cat" then
        some (Cat.init name age breed (data.indoor?.getD true) today)
      else if pet_type = "Bird" then
        some (Bird.init name age breed (data.can_fly?.getD true) today)
      else
        none
    match pet? with
    | some pet => some { pet with
        care_schedule := data.care_schedule?.getD [],
        health_records := data.health_records?.getD [] }
    | none => none
  | _, _, _, _ => none

/-- `PetCareManager.load_data` on an already-parsed stored array: each
record is passed to `create_pet_from_data` and appended only when a pet
comes back, so failing records are skipped individually. -/
def load_data (docs : List PetDoc) (today : Int) : List Pet :=
  docs.filterMap (fun d => create_pet_from_data d today)

/-- `PetCareManager.remove_pet(pet_name)`: keeps exactly the pets whose
name differs from `pet_name`. -/
def remove_pet (pets : List Pet) (pet_name : String) : List Pet :=
  pets.filter (fun pet => pet.name != pet_name)

/-- `PetCareManager.get_pet_by_name(name)`: first pet with that name, or
`None`. -/
def get_pet_by_name (pets : List Pet) (name : String) : Option Pet :=
  pets.find? (fun pet => pet.name == name)

/-- Result of `PetCareManager.save_data`: the (unchanged) in-memory pets,
the document actually written when the write succeeded, and the printed
diagnostic when it failed. -/
structure SaveResult where
  pets : List Pet
  written : Option (List PetDoc)
  diagnostic : Option String
  deriving Repr, DecidableEq

/-- `PetCareManager.save_data()`: serializes every pet and attempts the
file write (modelled by the `write` argument, which may fail with an
error message).  Any exception is caught inside the method and printed as
`Error saving data: ...`; either way the method returns normally and the
in-memory list is untouched. -/
def save_data (pets : List Pet) (write : List PetDoc → Except String Unit) : SaveResult :=
  let data := pets.map Pet.to_dict
  match write data with
  | .ok _ => { pets := pets, written := some data, diagnostic := none }
  | .error e => { pets := pets, written := none, diagnostic := some ("Error saving data: " ++ e) }

/-- Sample pet: the dog "Rex" from §8 of the spec, constructed on day 0. -/
def rexPet : Pet := Dog.init "Rex" 3 "Mixed" "Medium" 0

/-- Sample pet: a cat constructed on day 0. -/
def whiskersPet : Pet := Cat.init "Whiskers" 2 "Tabby" true 0

/-- Sample stored record: the serialization of `rexPet`. -/
def rexDoc : PetDoc := rexPet.to_dict

/-- Sample malformed stored record: an unrecognized variant tag. -/
def dragonDoc : PetDoc :=
  { type? := some "Dragon", name? := some "Smaug", age? := some 100, breed? := some "Wyvern" }

/-- Sample stored record: a recognized tag with the four required keys but
no variant-specific key and no `care_schedule`/`health_records` keys. -/
def bareDogDoc : PetDoc :=
  { type? := some "Dog", name? := some "A", age? := some 1, breed? := some "B" }

/-- Key lemma for the overdue query: folding the loop body over the
schedule appends, in schedule order, one entry per task whose
`days_since` meets or exceeds its cadence. -/
theorem foldl_overdue_step_eq (r : Int) (sched : List CareTask) (acc : List OverdueEntry) :
    sched.foldl (overdue_step r) acc =
      acc ++ (sched.filter (fun t => decide (t.frequency_days ≤ r - t.last_done))).map
        (fun t => { task := t.task, days_overdue := r - t.last_done - t.frequency_days + 1 }) := by
  induction sched generalizing acc with
  | nil => simp
  | cons t ts ih =>
    by_cases h : t.frequency_days ≤ r - t.last_done
    · simp [List.foldl_cons, overdue_step, h, ih, List.filter_cons]
    · simp [List.foldl_cons, overdue_step, h, ih, List.filter_cons]

/-- C1: an entry with last-done date `d` and cadence `f` is reported by
`get_overdue_tasks` at reference date `r` exactly when
`days_since = r - d` satisfies `days_since ≥ f`, with
`days_overdue = days_since - f + 1`; non-overdue entries are omitted and
the result follows the schedule order (first conjunct, as a filter/map
characterization).  In particular, for any entry with `f ≥ 1` and any
`k ≥ 0`, evaluating at `r = d + f + k` reports `days_overdue = k + 1`
(second conjunct). -/
theorem get_overdue_tasks_spec (p : Pet) (r : Int) :
    p.get_overdue_tasks r =
      (p.care_schedule.filter (fun t => decide (t.frequency_days ≤ r - t.last_done))).map
        (fun t => { task := t.task, days_overdue := r - t.last_done - t.frequency_days + 1 }) ∧
    ∀ t ∈ p.care_schedule, 1 ≤ t.frequency_days → ∀ k : Int, 0 ≤ k →
      ({ task := t.task, days_overdue := k + 1 } : OverdueEntry) ∈
        p.get_overdue_tasks (t.last_done + t.frequency_days + k) := by
  constructor
  · simpa using foldl_overdue_step_eq r p.care_schedule []
  · intro t ht _ k hk
    have hrw := foldl_overdue_step_eq (t.last_done + t.frequency_days + k) p.care_schedule []
    rw [Pet.get_overdue_tasks, hrw, List.nil_append]
    refine List.mem_map.mpr ⟨t, List.mem_filter.mpr ⟨ht, ?_⟩, ?_⟩
    · simp only [decide_eq_true_eq]
      omega
    · have : t.last_done + t.frequency_days + k - t.last_done - t.frequency_days + 1 = k + 1 := by
        ring
      rw [this]

/-- Witness for C1 at a concrete input: Rex's Bath task (cadence 7, last
done day 0) is reported with `days_overdue = 3` on day 9 = 0 + 7 + 2. -/
theorem get_overdue_tasks_spec_witness :
    ({ task := "Bath", frequency_days := 7, last_done := 0 } : CareTask) ∈ rexPet.care_schedule ∧
    ({ task := "Bath", days_overdue := 3 } : OverdueEntry) ∈ rexPet.get_overdue_tasks 9 := by
  refine ⟨by decide, ?_⟩
  have h := (get_overdue_tasks_spec rexPet 9).2
    { task := "Bath", frequency_days := 7, last_done := 0 } (by decide) (by decide) 2 (by decide)
  exact h

/-- C2: deserializing the serialization of any pet reproduces the pet
exactly — same variant, name, age, breed, variant-specific attribute, and
the identical care-schedule and health-record sequences in order — for
any ambient construction date. -/
theorem pet_roundtrip (p : Pet) (today : Int) :
    create_pet_from_data p.to_dict today = some p := by
  obtain ⟨v, name, age, breed, cs, hr⟩ := p
  cases v <;> rfl

/-- C3: a stored record with an unrecognized variant tag or a missing
required key (`type`, `name`, `age` or `breed`) yields no pet and is
skipped individually: loading a document containing it produces exactly
the pets of the surrounding records, with no exception escaping (the
embedding is a total function). -/
theorem load_data_skips_malformed (pre post : List PetDoc) (bad : PetDoc) (today : Int)
    (h : bad.type? = none ∨ bad.name? = none ∨ bad.age? = none ∨ bad.breed? = none ∨
      (bad.type? ≠ some "Dog" ∧ bad.type? ≠ some "Cat" ∧ bad.type? ≠ some "Bird")) :
    create_pet_from_data bad today = none ∧
    load_data (pre ++ bad :: post) today = load_data pre today ++ load_data post today := by
  have hnone : create_pet_from_data bad today = none := by
    rcases hbt : bad.type? with _ | s <;>
      rcases hbn : bad.name? with _ | n <;>
        rcases hba : bad.age? with _ | a <;>
          rcases hbb : bad.breed? with _ | b <;>
            simp_all [create_pet_from_data]
  refine ⟨hnone, ?_⟩
  simp [load_data, List.filterMap_append, List.filterMap_cons, hnone]

/-- Witness for C3: a document holding Rex's well-formed record and one
record with the unrecognized tag "Dragon" loads to exactly the one pet. -/
theorem load_data_skips_malformed_witness :
    load_data [rexDoc, dragonDoc] 0 = [rexPet] := by
  have h := load_data_skips_malformed [rexDoc] [] dragonDoc 0 (by decide)
  calc load_data [rexDoc, dragonDoc] 0
      = load_data [rexDoc] 0 ++ load_data [] 0 := h.2
    _ = [rexPet] := by decide

/-- C4: removing a name keeps exactly the pets with a different name, in
order (so all pets with the given name are removed, not only the first);
a subsequent lookup of that name finds nothing; and when no pet bears the
name the collection is left unchanged. -/
theorem remove_pet_spec (pets : List Pet) (name : String) :
    (∀ p, p ∈ remove_pet pets name ↔ p ∈ pets ∧ p.name ≠ name) ∧
    get_pet_by_name (remove_pet pets name) name = none ∧
    ((∀ p ∈ pets, p.name ≠ name) → remove_pet pets name = pets) := by
  refine ⟨?_, ?_, ?_⟩
  · intro p
    simp [remove_pet, List.mem_filter, bne_iff_ne]
  · refine List.find?_eq_none.mpr ?_
    intro x hx
    rcases List.mem_filter.mp hx with ⟨-, hne⟩
    simpa [bne_iff_ne] using hne
  · intro h
    refine List.filter_eq_self.mpr ?_
    intro p hp
    simpa [bne_iff_ne] using h p hp

/-- Witness for C4 on a concrete two-pet store: membership
characterization, lookup after removal is `none`, and removing the absent
name "Bella" changes nothing. -/
theorem remove_pet_spec_witness :
    (rexPet ∈ remove_pet [rexPet, whiskersPet] "Whiskers" ↔
      rexPet ∈ [rexPet, whiskersPet] ∧ rexPet.name ≠ "Whiskers") ∧
    get_pet_by_name (remove_pet [rexPet, whiskersPet] "Rex") "Rex" = none ∧
    remove_pet [rexPet, whiskersPet] "Bella" = [rexPet, whiskersPet] :=
  ⟨(remove_pet_spec [rexPet, whiskersPet] "Whiskers").1 rexPet,
   (remove_pet_spec [rexPet, whiskersPet] "Rex").2.1,
   (remove_pet_spec [rexPet, whiskersPet] "Bella").2.2 (by decide)⟩

/-- C5: immediately after construction each variant's care schedule is
exactly its documented default seed, in order, with `last_done` equal to
the construction date; and a freshly constructed Dog serializes with
variant tag `"Dog"` and its `size` attribute (in particular `"Medium"`
when constructed with the default size). -/
theorem default_care_schedules (name : String) (age : Int) (breed : String)
    (size : String) (indoor can_fly : Bool) (today : Int) :
    (Dog.init name age breed size today).care_schedule =
      [{ task := "Walk", frequency_days := 1, last_done := today },
       { task := "Feed", frequency_days := 1, last_done := today },
       { task := "Bath", frequency_days := 7, last_done := today },
       { task := "Vet Checkup", frequency_days := 90, last_done := today }] ∧
    (Dog.init name age breed size today).to_dict.type? = some "Dog" ∧
    (Dog.init name age breed size today).to_dict.size? = some size ∧
    (Dog.init name age breed "Medium" today).to_dict.size? = some "Medium" ∧
    (Cat.init name age breed indoor today).care_schedule =
      [{ task := "Feed", frequency_days := 1, last_done := today },
       { task := "Litter Box Clean", frequency_days := 2, last_done := today },
       { task := "Brush", frequency_days := 3, last_done := today },
       { task := "Vet Checkup", frequency_days := 90, last_done := today }] ∧
    (Bird.init name age breed can_fly today).care_schedule =
      [{ task := "Feed", frequency_days := 1, last_done := today },
       { task := "Cage Clean", frequency_days := 3, last_done := today },
       { task := "Wing Trim", frequency_days := 60, last_done := today },
       { task := "Vet Checkup", frequency_days := 180, last_done := today }] :=
  ⟨rfl, rfl, rfl, rfl, rfl, rfl⟩

/-- C6: deserializing a record with a recognized variant tag and the four
required keys reconstructs a pet of the matching variant, and a missing
variant-specific key falls back to that variant's documented default:
`size = "Medium"` for Dog, `indoor = true` for Cat, `can_fly = true` for
Bird. -/
theorem missing_variant_attribute_defaults (d : PetDoc) (today : Int)
    (name : String) (age : Int) (breed : String)
    (hn : d.name? = some name) (ha : d.age? = some age) (hb : d.breed? = some breed) :
    (d.type? = some "Dog" → d.size? = none →
      (create_pet_from_data d today).map Pet.variant = some (.Dog "Medium")) ∧
    (d.type? = some "Cat" → d.indoor? = none →
      (create_pet_from_data d today).map Pet.variant = some (.Cat true)) ∧
    (d.type? = some "Bird" → d.can_fly? = none →
      (create_pet_from_data d today).map Pet.variant = some (.Bird true)) := by
  refine ⟨?_, ?_, ?_⟩ <;> intro ht hattr <;>
    simp [create_pet_from_data, ht, hn, ha, hb, hattr,
      Dog.init, Cat.init, Bird.init, Pet.base, Pet.add_care_task]

/-- Witness for C6: a Dog record with no `size` key reconstructs with
`size = "Medium"`. -/
theorem missing_variant_attribute_defaults_witness :
    (create_pet_from_data bareDogDoc 7).map Pet.variant = some (.Dog "Medium") :=
  (missing_variant_attribute_defaults bareDogDoc 7 "A" 1 "B" rfl rfl rfl).1 rfl rfl

/-- C7: `save_data` leaves the in-memory collection exactly as it was,
whether or not the write succeeds, and a write failure is converted into
the non-fatal printed diagnostic `Error saving data: ...` with nothing
written — no exception escapes (the embedding is a total function). -/
theorem save_data_nonfatal (pets : List Pet) (write : List PetDoc → Except String Unit) :
    (save_data pets write).pets = pets ∧
    (∀ e, write (pets.map Pet.to_dict) = .error e →
      (save_data pets write).written = none ∧
      (save_data pets write).diagnostic = some ("Error saving data: " ++ e)) := by
  refine ⟨?_, ?_⟩
  · simp only [save_data]
    cases write (pets.map Pet.to_dict) <;> rfl
  · intro e he
    simp only [save_data, he]
    exact ⟨trivial, trivial⟩

/-- Witness for C7: a write that fails with "disk full" leaves the
one-pet collection intact and reports the diagnostic. -/
theorem save_data_nonfatal_witness :
    (save_data [rexPet] (fun _ => Except.error "disk full")).pets = [rexPet] ∧
    (save_data [rexPet] (fun _ => Except.error "disk full")).written = none ∧
    (save_data [rexPet] (fun _ => Except.error "disk full")).diagnostic =
      some ("Error saving data: " ++ "disk full") :=
  ⟨(save_data_nonfatal [rexPet] (fun _ => Except.error "disk full")).1,
   ((save_data_nonfatal [rexPet] (fun _ => Except.error "disk full")).2 "disk full" rfl).1,
   ((save_data_nonfatal [rexPet] (fun _ => Except.error "disk full")).2 "disk full" rfl).2⟩

/-- C8: `add_health_record` appends exactly one entry at the end of the
health-record sequence — length grows by one, every prior entry is
unchanged and in place, all other pet attributes are untouched — for
arbitrary (unvalidated) arguments, and with no supplied date the new
entry's date is the ambient current date. -/
theorem add_health_record_spec (p : Pet) (record_type description : String)
    (date : Option Int) (today : Int) :
    (p.add_health_record record_type description date today).health_records =
      p.health_records ++
        [{ type := record_type, description := description, date := date.getD today }] ∧
    (p.add_health_record record_type description date today).health_records.length =
      p.health_records.length + 1 ∧
    (p.add_health_record record_type description date today).health_records.take
      p.health_records.length = p.health_records ∧
    (p.add_health_record record_type description none today).health_records.getLast? =
      some { type := record_type, description := description, date := today } ∧
    (p.add_health_record record_type description date today).variant = p.variant ∧
    (p.add_health_record record_type description date today).name = p.name ∧
    (p.add_health_record record_type description date today).age = p.age ∧
    (p.add_health_record record_type description date today).breed = p.breed ∧
    (p.add_health_record record_type description date today).care_schedule =
      p.care_schedule := by
  refine ⟨rfl, by simp [Pet.add_health_record], ?_, ?_, rfl, rfl, rfl, rfl, rfl⟩
  · simp [Pet.add_health_record, List.take_left]
  · simp [Pet.add_health_record, List.getLast?_concat]

/-- C9: the overdue query is a pure read — running the method returns the
pet state unchanged, its result is the pure function of the care schedule
and the reference date (hence two evaluations at the same reference date
agree), and pets with equal care schedules get equal results regardless
of their other attributes. -/
theorem get_overdue_tasks_pure (p q : Pet) (r : Int) :
    (p.get_overdue_tasks_run r).2 = p ∧
    (p.get_overdue_tasks_run r).1 = p.get_overdue_tasks r ∧
    (p.care_schedule = q.care_schedule →
      (p.get_overdue_tasks_run r).1 = (q.get_overdue_tasks_run r).1) := by
  refine ⟨rfl, rfl, ?_⟩
  intro h
  simp [Pet.get_overdue_tasks_run, h]

/-- Witness for C9: Rex with an extra health record has the same overdue
result as plain Rex on day 5, and the run leaves the pet unchanged. -/
theorem get_overdue_tasks_pure_witness :
    ((rexPet.add_health_record "Vaccination" "Rabies shot" none 0).get_overdue_tasks_run 5).2 =
      rexPet.add_health_record "Vaccination" "Rabies shot" none 0 ∧
    ((rexPet.add_health_record "Vaccination" "Rabies shot" none 0).get_overdue_tasks_run 5).1 =
      (rexPet.get_overdue_tasks_run 5).1 :=
  ⟨(get_overdue_tasks_pure (rexPet.add_health_record "Vaccination" "Rabies shot" none 0)
      rexPet 5).1,
   (get_overdue_tasks_pure (rexPet.add_health_record "Vaccination" "Rabies shot" none 0)
      rexPet 5).2.2 (by decide)⟩

/-- C10: when a record with a recognized tag deserializes successfully
but lacks the `care_schedule` (resp. `health_records`) key, the
reconstructed pet's care schedule (resp. health-record sequence) is empty
— the variant's freshly seeded default tasks are overwritten by the
empty default, not retained. -/
theorem missing_sequences_deserialize_empty (d : PetDoc) (today : Int) (p : Pet)
    (h : create_pet_from_data d today = some p) :
    (d.care_schedule? = none → p.care_schedule = []) ∧
    (d.health_records? = none → p.health_records = []) := by
  have hcs : p.care_schedule = d.care_schedule?.getD [] ∧
      p.health_records = d.health_records?.getD [] := by
    unfold create_pet_from_data at h
    split at h
    · split at h
      · injection h with h
        subst h
        exact ⟨rfl, rfl⟩
      · split at h
        · injection h with h
          subst h
          exact ⟨rfl, rfl⟩
        · split at h
          · injection h with h
            subst h
            exact ⟨rfl, rfl⟩
          · simp at h
    · simp at h
  exact ⟨fun hk => by simp [hcs.1, hk], fun hk => by simp [hcs.2, hk]⟩

/-- Witness for C10: the bare Dog record (no schedule or record keys)
deserializes to a pet with empty schedule and records, even though
`Dog.init` seeds four default tasks. -/
theorem missing_sequences_deserialize_empty_witness :
    ({ variant := .Dog "Medium", name := "A", age := 1, breed := "B",
       care_schedule := [], health_records := [] } : Pet).care_schedule = [] ∧
    ({ variant := .Dog "Medium", name := "A", age := 1, breed := "B",
       care_schedule := [], health_records := [] } : Pet).health_records = [] :=
  ⟨(missing_sequences_deserialize_empty bareDogDoc 7 _ (by decide)).1 rfl,
   (missing_sequences_deserialize_empty bareDogDoc 7 _ (by decide)).2 rfl⟩
